import Mathlib

/-!
Shallow embedding of the reconciliation control logic of the
synapse-operator repository: the subreconciler pipeline executor, the
status-convergence writers, the Synapse and MautrixSignal reconcilers,
and the configuration-document mutation functions.

The data model and the operations are translated from the Go sources
(`controllers/synapse/synapse/synapse_controller.go`,
`controllers/synapse/mautrixsignal/mautrixsignal_configmap.go` and the
mautrix-signal controller / synapse configmap files).  Helpers that live
outside the provided sources (the `subreconciler` library and
`helpers/utils`) are modelled from the specification and are marked as
such in their doc comments.
-/

set_option autoImplicit false

namespace SynapseOperator

/-- A Kubernetes error, as far as the reconcilers distinguish them:
`notFound` is the class recognised by `k8serrors.IsNotFound`; every other
error is `other`. -/
inductive KErr where
  | notFound (msg : String)
  | other (msg : String)
deriving DecidableEq, Repr

/-- `k8serrors.IsNotFound`. -/
def KErr.isNotFound : KErr → Bool
  | .notFound _ => true
  | .other _ => false

/-- `ctrl.Result`: the controller-runtime result value.  `requeueAfter = 0`
means no delay was requested. -/
structure CtrlResult where
  requeue : Bool
  requeueAfter : Nat
deriving DecidableEq, Repr

/-- The pair returned by a subreconciler step: an optional `*ctrl.Result`
(Go nil pointer = `none`) and an optional error. -/
def SubResult : Type := Option CtrlResult × Option KErr

/-- Modelled from the spec: `subreconciler.ContinueReconciling` returns a
nil result and a nil error ("Continue" outcome, §4.1). -/
def continueReconciling : SubResult := (none, none)

/-- Modelled from the spec: `subreconciler.DoNotRequeue` is the terminal
Halt outcome: a result that requests no requeue, with a nil error. -/
def doNotRequeue : SubResult := (some ⟨false, 0⟩, none)

/-- Modelled from the spec: `subreconciler.Requeue` requests an immediate
re-run with a nil error. -/
def requeueNow : SubResult := (some ⟨true, 0⟩, none)

/-- Modelled from the spec: `subreconciler.RequeueWithError` requests a
retry with the error recorded (§4.1 "any error returned by a step is
surfaced as RequeueWithError"). -/
def requeueWithError (e : KErr) : SubResult := (some ⟨true, 0⟩, some e)

/-- Modelled from the spec: `subreconciler.RequeueWithDelayAndError`
requests a delayed retry carrying an error. -/
def requeueWithDelayAndError (d : Nat) (e : KErr) : SubResult :=
  (some ⟨false, d⟩, some e)

/-- Modelled from the spec: `subreconciler.ShouldHaltOrRequeue` is true
exactly when the step did not return the plain Continue outcome
(§4.1: "Continue → proceed to next step; anything else → stop"). -/
def shouldHaltOrRequeue (r : Option CtrlResult) (e : Option KErr) : Bool :=
  r.isSome || e.isSome

/-- Modelled from the spec: `subreconciler.Evaluate` maps a step outcome to
the concrete `(ctrl.Result, error)` pair handed to the host runtime; a nil
result dereferences to the zero value. -/
def evaluate (r : Option CtrlResult) (e : Option KErr) : CtrlResult × Option KErr :=
  (r.getD ⟨false, 0⟩, e)

/-- A subreconciler step over an abstract world state `σ` (the Go
`FnWithRequest` with the context/request closed over): it returns its
outcome together with the possibly mutated world. -/
def SubStep (σ : Type) : Type := σ → SubResult × σ

/-- The pipeline executor loop of `SynapseReconciler.Reconcile` /
`MautrixSignalReconciler.Reconcile`: run the steps in order, stop at the
first one whose outcome is halt-or-requeue and return its evaluation;
when every step continues, return `Evaluate(DoNotRequeue())`. -/
def runSubreconcilers {σ : Type} : List (SubStep σ) → σ → (CtrlResult × Option KErr) × σ
  | [], w => (evaluate doNotRequeue.1 doNotRequeue.2, w)
  | f :: rest, w =>
    match f w with
    | ((r, e), w') =>
      if shouldHaltOrRequeue r e then (evaluate r e, w')
      else runSubreconcilers rest w'

/-- Runs a list of steps under the assumption that each continues: returns
`some` final world when every step returned the Continue outcome, `none`
as soon as one halts or requeues. -/
def runAllContinue {σ : Type} : List (SubStep σ) → σ → Option σ
  | [], w => some w
  | f :: rest, w =>
    match f w with
    | ((r, e), w') =>
      if shouldHaltOrRequeue r e then none
      else runAllContinue rest w'

/-- `types.NamespacedName`: the identity of an object in the store. -/
structure NName where
  name : String
  namespc : String
deriving DecidableEq, Repr

/-- `Status.HomeserverConfiguration` of a Synapse. -/
structure HomeserverConfiguration where
  serverName : String
  reportStats : Bool
deriving DecidableEq, Repr

/-- `Status.DatabaseConnectionInfo` of a Synapse. -/
structure DatabaseConnectionInfo where
  connectionURL : String
  databaseName : String
  user : String
  password : String
  state : String
deriving DecidableEq, Repr

/-- One bridge entry of `Status.Bridges` (Enabled flag and bridge name). -/
structure BridgeStatus where
  enabled : Bool
  name : String
deriving DecidableEq, Repr

/-- `Status.Bridges` of a Synapse. -/
structure SynapseBridges where
  heisenbridge : BridgeStatus
  mautrixSignal : BridgeStatus
deriving DecidableEq, Repr

/-- The Status of a Synapse object, with the fields the controller uses. -/
structure SynapseStatus where
  state : String
  reason : String
  needsReconcile : Bool
  homeserverConfiguration : HomeserverConfiguration
  databaseConnectionInfo : DatabaseConnectionInfo
  bridges : SynapseBridges
deriving DecidableEq, Repr

/-- `Spec.Homeserver.Values` of a Synapse. -/
structure HomeserverValues where
  serverName : String
  reportStats : Bool
deriving DecidableEq, Repr

/-- `Spec.Homeserver` of a Synapse: either a user-provided ConfigMap
reference or inline values. -/
structure SynapseHomeserver where
  configMap : Option NName
  values : HomeserverValues
deriving DecidableEq, Repr

/-- The Spec of a Synapse object, with the fields the controller uses. -/
structure SynapseSpec where
  homeserver : SynapseHomeserver
  createNewPostgreSQL : Bool
  isOpenshift : Bool
deriving DecidableEq, Repr

/-- A Synapse object: metadata identity, Spec and Status. -/
structure Synapse where
  name : String
  namespc : String
  spec : SynapseSpec
  status : SynapseStatus
deriving DecidableEq, Repr

/-- The Go zero value of a Synapse (`var synapse synapsev1alpha1.Synapse`). -/
def zeroSynapse : Synapse :=
  { name := "", namespc := ""
    spec :=
      { homeserver := { configMap := none, values := { serverName := "", reportStats := false } }
        createNewPostgreSQL := false
        isOpenshift := false }
    status :=
      { state := "", reason := "", needsReconcile := false
        homeserverConfiguration := { serverName := "", reportStats := false }
        databaseConnectionInfo :=
          { connectionURL := "", databaseName := "", user := "", password := "", state := "" }
        bridges :=
          { heisenbridge := { enabled := false, name := "" }
            mautrixSignal := { enabled := false, name := "" } } } }

/-- `Spec.Synapse` of a bridge object: the reference to the homeserver. -/
structure SynapseRef where
  name : String
  namespc : String
deriving DecidableEq, Repr

/-- `Spec.ConfigMap` of a MautrixSignal: reference to a user ConfigMap. -/
structure ConfigMapRef where
  name : String
  namespc : String
deriving DecidableEq, Repr

/-- The Spec of a MautrixSignal object. -/
structure MautrixSignalSpec where
  synapse : SynapseRef
  configMap : ConfigMapRef
deriving DecidableEq, Repr

/-- `Status.Synapse` of a MautrixSignal. -/
structure MsStatusSynapse where
  serverName : String
deriving DecidableEq, Repr

/-- The Status of a MautrixSignal object. -/
structure MautrixSignalStatus where
  synapse : MsStatusSynapse
  isOpenshift : Bool
  state : String
  reason : String
deriving DecidableEq, Repr

/-- A MautrixSignal object. -/
structure MautrixSignal where
  name : String
  namespc : String
  spec : MautrixSignalSpec
  status : MautrixSignalStatus
deriving DecidableEq, Repr

/-- The Go zero value of a MautrixSignal. -/
def zeroMautrixSignal : MautrixSignal :=
  { name := "", namespc := ""
    spec := { synapse := { name := "", namespc := "" }, configMap := { name := "", namespc := "" } }
    status := { synapse := { serverName := "" }, isOpenshift := false, state := "", reason := "" } }

/-- A Heisenbridge object, with the fields `updateSynapseStatusBridges`
reads (its name and its `Spec.Synapse.Name`). -/
structure Heisenbridge where
  name : String
  synapseName : String
deriving DecidableEq, Repr

/-- First-match lookup in an association list keyed by `NName`
(the object store for one kind). -/
def lookupN {α : Type} : List (NName × α) → NName → Option α
  | [], _ => none
  | (k, v) :: rest, key => if k = key then some v else lookupN rest key

/-- Store write: replace the first binding of `key`, or append it. -/
def setN {α : Type} : List (NName × α) → NName → α → List (NName × α)
  | [], key, v => [(key, v)]
  | (k, v') :: rest, key, v =>
    if k = key then (key, v) :: rest else (k, v') :: setN rest key v

/-- The world the reconcilers act on: the relevant slices of the object
store, plus injectable failures for the store calls the sources make
(transient Get errors, Status-Patch errors, and List errors). -/
structure World where
  synapses : List (NName × Synapse)
  mautrixsignals : List (NName × MautrixSignal)
  heisenbridges : List Heisenbridge
  secrets : List (NName × List (String × String))
  getSynErr : Option String
  getMsErr : Option String
  getSecretErr : Option String
  patchSynErr : Option String
  patchMsErr : Option String
  listPostgresErr : Bool
  listHeisenErr : Bool
  listMsErr : Bool
deriving DecidableEq, Repr

/-- `r.Get` on a Synapse key: an injected transient failure wins, then a
missing object is the not-found error, then the stored object. -/
def getSyn (w : World) (key : NName) : Except KErr Synapse :=
  match w.getSynErr with
  | some m => .error (.other m)
  | none =>
    match lookupN w.synapses key with
    | some s => .ok s
    | none => .error (.notFound ("synapses " ++ key.name ++ " not found"))

/-- `r.Get` on a MautrixSignal key. -/
def getMs (w : World) (key : NName) : Except KErr MautrixSignal :=
  match w.getMsErr with
  | some m => .error (.other m)
  | none =>
    match lookupN w.mautrixsignals key with
    | some ms => .ok ms
    | none => .error (.notFound ("mautrixsignals " ++ key.name ++ " not found"))

/-- `r.Get` on a Secret key, yielding its data map. -/
def getSecret (w : World) (key : NName) : Except KErr (List (String × String)) :=
  match w.getSecretErr with
  | some m => .error (.other m)
  | none =>
    match lookupN w.secrets key with
    | some d => .ok d
    | none => .error (.notFound ("secrets " ++ key.name ++ " not found"))

/-- String-keyed first-match lookup (Secret data, document maps). -/
def lookupStr {α : Type} : List (String × α) → String → Option α
  | [], _ => none
  | (k, v) :: rest, key => if k = key then some v else lookupStr rest key

/-- `SynapseReconciler.updateSynapseStatus`: re-read the stored Synapse by
the candidate's identity; on Get failure return the error with
`patched = false`; if the candidate Status differs from the fresh Status,
merge-patch the Status subresource (the stored Spec is untouched) and
return `patched = true`; otherwise perform no write. -/
def updateSynapseStatus (w : World) (synapse : Synapse) : (Option KErr × Bool) × World :=
  match getSyn w ⟨synapse.name, synapse.namespc⟩ with
  | .error e => ((some e, false), w)
  | .ok current =>
    if synapse.status ≠ current.status then
      match w.patchSynErr with
      | some m => ((some (.other m), false), w)
      | none =>
        ((none, true),
          { w with synapses := (setN w.synapses ⟨synapse.name, synapse.namespc⟩
              { current with status := synapse.status }) })
    else ((none, false), w)

/-- `MautrixSignalReconciler.updateMautrixSignalStatus`: same
status-convergence writer for MautrixSignal objects. -/
def updateMautrixSignalStatus (w : World) (ms : MautrixSignal) : (Option KErr × Bool) × World :=
  match getMs w ⟨ms.name, ms.namespc⟩ with
  | .error e => ((some e, false), w)
  | .ok current =>
    if ms.status ≠ current.status then
      match w.patchMsErr with
      | some m => ((some (.other m), false), w)
      | none =>
        ((none, true),
          { w with mautrixsignals := (setN w.mautrixsignals ⟨ms.name, ms.namespc⟩
              { current with status := ms.status }) })
    else ((none, false), w)

/-- `SynapseReconciler.setFailedState`: set State to FAILED with the given
reason on the in-memory copy and commit through `updateSynapseStatus`,
returning only the error. -/
def setFailedState (w : World) (synapse : Synapse) (reason : String) : Option KErr × World :=
  let s' := { synapse with status := { synapse.status with state := "FAILED", reason := reason } }
  match updateSynapseStatus w s' with
  | ((err, _), w') => (err, w')

/-- `SynapseReconciler.getLatestSynapse`: fetch the Synapse being
reconciled; not-found yields `DoNotRequeue` (benign absence), any other
Get error yields `RequeueWithError`, success continues with the fetched
object (the zero value stands for the untouched out-parameter). -/
def getLatestSynapse (w : World) (req : NName) : SubResult × Synapse :=
  match getSyn w req with
  | .error e =>
    if e.isNotFound then (doNotRequeue, zeroSynapse)
    else (requeueWithError e, zeroSynapse)
  | .ok s => (continueReconciling, s)

/-- `MautrixSignalReconciler.getLatestMautrixSignal`: same shape for the
MautrixSignal being reconciled. -/
def getLatestMautrixSignal (w : World) (req : NName) : SubResult × MautrixSignal :=
  match getMs w req with
  | .error e =>
    if e.isNotFound then (doNotRequeue, zeroMautrixSignal)
    else (requeueWithError e, zeroMautrixSignal)
  | .ok ms => (continueReconciling, ms)

/-- The RFC 4648 base64 alphabet. -/
def base64Alphabet : List Char :=
  "ABCDEFGHIJKLMNOPQRSTUVWXYZabcdefghijklmnopqrstuvwxyz0123456789+/".toList

/-- The base64 digit for a 6-bit value. -/
def base64Char (n : Nat) : Char := base64Alphabet.getD n 'A'

/-- Encode a byte list into base64 characters, three bytes at a time,
padding the final group with `=`. -/
def base64Chunks : List Nat → List Char
  | [] => []
  | [b1] => [base64Char (b1 / 4), base64Char (b1 % 4 * 16), '=', '=']
  | [b1, b2] =>
    [base64Char (b1 / 4), base64Char (b1 % 4 * 16 + b2 / 16), base64Char (b2 % 16 * 4), '=']
  | b1 :: b2 :: b3 :: rest =>
    base64Char (b1 / 4) :: base64Char (b1 % 4 * 16 + b2 / 16) ::
      base64Char (b2 % 16 * 4 + b3 / 64) :: base64Char (b3 % 64) :: base64Chunks rest

/-- Modelled from the spec: the repository's `base64encode` helper is not
among the provided sources; it is standard base64 of the input bytes
(here the UTF-8 bytes of the string). -/
def base64encode (s : String) : String :=
  String.mk (base64Chunks (s.toUTF8.toList.map (fun b => b.toNat)))

/-- `GetPostgresClusterResourceName`: `strings.Join([name, "pgsql"], "-")`. -/
def getPostgresClusterResourceName (s : Synapse) : String :=
  s.name ++ "-" ++ "pgsql"

/-- `SynapseReconciler.updateSynapseStatusDatabase`: check the five
required keys of the PostgreSQL Secret data in order, returning the first
missing-key error with the Synapse unchanged; when all are present,
fill `Status.DatabaseConnectionInfo` from the Secret values. -/
def updateSynapseStatusDatabase (s : Synapse) (secretData : List (String × String)) :
    Option String × Synapse :=
  match lookupStr secretData "host" with
  | none => (some "missing host in PostgreSQL Secret", s)
  | some host =>
    match lookupStr secretData "port" with
    | none => (some "missing port in PostgreSQL Secret", s)
    | some port =>
      match lookupStr secretData "dbname" with
      | none => (some "missing dbname in PostgreSQL Secret", s)
      | some _ =>
        match lookupStr secretData "user" with
        | none => (some "missing user in PostgreSQL Secret", s)
        | some user =>
          match lookupStr secretData "password" with
          | none => (some "missing password in PostgreSQL Secret", s)
          | some password =>
            (none,
              { s with status := { s.status with databaseConnectionInfo :=
                { connectionURL := host ++ ":" ++ port
                  databaseName := "synapse"
                  user := user
                  password := base64encode password
                  state := "READY" } } })

/-- `SynapseReconciler.updateSynapseStatusWithPostgreSQLInfos`: fetch the
PostgresCluster Secret, derive the database connection info, and commit
the Status through the convergence writer. -/
def updateSynapseStatusWithPostgreSQLInfos (w : World) (req : NName) : SubResult × World :=
  match getLatestSynapse w req with
  | ((r0, e0), s) =>
    if shouldHaltOrRequeue r0 e0 then ((r0, e0), w)
    else
      let keyForPostgresClusterSecret : NName :=
        ⟨getPostgresClusterResourceName s ++ "-pguser-synapse", s.namespc⟩
      match getSecret w keyForPostgresClusterSecret with
      | .error e => (requeueWithError e, w)
      | .ok secretData =>
        match updateSynapseStatusDatabase s secretData with
        | (some m, _) => (requeueWithError (.other m), w)
        | (none, s') =>
          match updateSynapseStatus w s' with
          | ((some e, _), w') => (requeueWithError e, w')
          | ((none, hasPatched), w') =>
            if hasPatched then (requeueNow, w') else (continueReconciling, w')

/-- `SynapseReconciler.setStatusHomeserverConfiguration`: copy the
Spec.Homeserver.Values into Status.HomeserverConfiguration and commit. -/
def setStatusHomeserverConfiguration (w : World) (req : NName) : SubResult × World :=
  match getLatestSynapse w req with
  | ((r0, e0), s) =>
    if shouldHaltOrRequeue r0 e0 then ((r0, e0), w)
    else
      let s' := { s with status := { s.status with homeserverConfiguration :=
        { serverName := s.spec.homeserver.values.serverName
          reportStats := s.spec.homeserver.values.reportStats } } }
      match updateSynapseStatus w s' with
      | ((some e, _), w') => (requeueWithError e, w')
      | ((none, hasPatched), w') =>
        if hasPatched then (requeueNow, w') else (continueReconciling, w')

/-- `SynapseReconciler.setSynapseStatusAsRunning`: on the freshly fetched
Synapse, clear NeedsReconcile, set State to RUNNING and Reason to the
empty string, then commit through the convergence writer. -/
def setSynapseStatusAsRunning (w : World) (req : NName) : SubResult × World :=
  match getLatestSynapse w req with
  | ((r0, e0), s) =>
    if shouldHaltOrRequeue r0 e0 then ((r0, e0), w)
    else
      let s' := { s with status :=
        { s.status with needsReconcile := false, state := "RUNNING", reason := "" } }
      match updateSynapseStatus w s' with
      | ((some e, _), w') => (requeueWithError e, w')
      | ((none, hasPatched), w') =>
        if hasPatched then (requeueNow, w') else (continueReconciling, w')

/-- The items delivered by `r.Client.List` on HeisenbridgeList: on a List
failure the list stays at its zero value (no items). -/
def listHeisenbridges (w : World) : List Heisenbridge :=
  if w.listHeisenErr then [] else w.heisenbridges

/-- The items delivered by `r.Client.List` on MautrixSignalList. -/
def listMautrixSignals (w : World) : List MautrixSignal :=
  if w.listMsErr then [] else w.mautrixsignals.map (fun p => p.2)

/-- The body of the HeisenbridgeList loop of `updateSynapseStatusBridges`. -/
def heisenFlagStep (acc : Synapse) (h : Heisenbridge) : Synapse :=
  if h.synapseName = acc.name then
    { acc with status.bridges.heisenbridge := { enabled := true, name := h.name } }
  else acc

/-- The body of the MautrixSignalList loop of `updateSynapseStatusBridges`. -/
def msFlagStep (acc : Synapse) (ms : MautrixSignal) : Synapse :=
  if ms.spec.synapse.name = acc.name then
    { acc with status.bridges.mautrixSignal := { enabled := true, name := ms.name } }
  else acc

/-- `SynapseReconciler.updateSynapseStatusBridges`: scan the Heisenbridge
and MautrixSignal objects for ones referencing this Synapse, flag them in
Status.Bridges, and commit.  The two List calls' errors are discarded by
the source (`r.Client.List(ctx, hList)` with no error check). -/
def updateSynapseStatusBridges (w : World) (req : NName) : SubResult × World :=
  match getLatestSynapse w req with
  | ((r0, e0), s) =>
    if shouldHaltOrRequeue r0 e0 then ((r0, e0), w)
    else
      match updateSynapseStatus w
        ((listMautrixSignals w).foldl msFlagStep ((listHeisenbridges w).foldl heisenFlagStep s)) with
      | ((some e, _), w') => (requeueWithError e, w')
      | ((none, hasPatched), w') =>
        if hasPatched then (requeueNow, w') else (continueReconciling, w')

/-- `SynapseReconciler.isPostgresOperatorInstalled`: listing
PostgresCluster objects succeeds. -/
def isPostgresOperatorInstalled (w : World) : Bool :=
  !w.listPostgresErr

/-- A subreconciler of the Synapse pipeline, request included. -/
def SynStep : Type := World → NName → SubResult × World

/-- The subreconcilers of the Synapse pipeline whose bodies the claims do
not depend on; `SynapseReconciler.Reconcile` is proved for every choice of
these step functions. -/
structure SynapseStepFns where
  parseInputSynapseConfigMap : SynStep
  copyInputSynapseConfigMap : SynStep
  reconcileSynapseConfigMap : SynStep
  reconcilePostgresClusterConfigMap : SynStep
  reconcilePostgresClusterCR : SynStep
  updateSynapseConfigMapForPostgresCluster : SynStep
  updateSynapseConfigMapForHeisenbridge : SynStep
  updateSynapseConfigMapForMautrixSignal : SynStep
  reconcileSynapseServiceAccount : SynStep
  reconcileSynapseRoleBinding : SynStep
  reconcileSynapseService : SynStep
  reconcileSynapsePVC : SynStep
  reconcileSynapseDeployment : SynStep

/-- The failure reason written when the postgres-operator is absent. -/
def postgresMissingReason : String :=
  "Cannot create PostgreSQL instance for synapse. Postgres-operator is not installed."

/-- Close a request-taking step into a `SubStep World` for the executor. -/
def atReq (f : SynStep) (req : NName) : SubStep World := fun w => f w req

/-- `SynapseReconciler.Reconcile`: fetch the Synapse, assemble the
subreconciler list from its Spec/Status feature flags (with the inline
halt when a new PostgreSQL is requested but the postgres-operator is not
installed: write the FAILED state and return `Evaluate(DoNotRequeue())`),
then run the subreconcilers sequentially. -/
def synapseReconcile (fns : SynapseStepFns) (w : World) (req : NName) :
    (CtrlResult × Option KErr) × World :=
  match getLatestSynapse w req with
  | ((r0, e0), synapse) =>
    if shouldHaltOrRequeue r0 e0 then (evaluate r0 e0, w)
    else
      let steps1 : List (SubStep World) :=
        if (synapse.spec.homeserver.configMap).isSome then
          [atReq fns.parseInputSynapseConfigMap req, atReq fns.copyInputSynapseConfigMap req]
        else
          [atReq setStatusHomeserverConfiguration req, atReq fns.reconcileSynapseConfigMap req]
      let steps2 := steps1 ++ [atReq updateSynapseStatusBridges req]
      if synapse.spec.createNewPostgreSQL && !isPostgresOperatorInstalled w then
        match setFailedState w synapse postgresMissingReason with
        | (_, w') => (evaluate doNotRequeue.1 doNotRequeue.2, w')
      else
        let steps3 := steps2 ++
          (if synapse.spec.createNewPostgreSQL then
            [atReq fns.reconcilePostgresClusterConfigMap req,
             atReq fns.reconcilePostgresClusterCR req,
             atReq updateSynapseStatusWithPostgreSQLInfos req,
             atReq fns.updateSynapseConfigMapForPostgresCluster req]
          else [])
        let steps4 := steps3 ++
          (if synapse.status.bridges.heisenbridge.enabled then
            [atReq fns.updateSynapseConfigMapForHeisenbridge req]
          else [])
        let steps5 := steps4 ++
          (if synapse.status.bridges.mautrixSignal.enabled then
            [atReq fns.updateSynapseConfigMapForMautrixSignal req]
          else [])
        let steps6 := steps5 ++
          (if synapse.spec.isOpenshift then
            [atReq fns.reconcileSynapseServiceAccount req,
             atReq fns.reconcileSynapseRoleBinding req]
          else [])
        let steps7 := steps6 ++
          [atReq fns.reconcileSynapseService req,
           atReq fns.reconcileSynapsePVC req,
           atReq fns.reconcileSynapseDeployment req,
           atReq setSynapseStatusAsRunning req]
        runSubreconcilers steps7 w

/-- Modelled from the spec: `helpers/utils.ComputeNamespace` is not among
the provided sources; a bridge reference names a namespace-equivalent
scope, defaulting to the referrer's own scope when left empty. -/
def computeNamespace (defaultNs otherNs : String) : String :=
  if otherNs = "" then defaultNs else otherNs

/-- Modelled from the spec: `helpers/utils.UpdateSynapseStatus` is not
among the provided sources; per §4.5 the dependency trigger "commits via
the Status Convergence Writer", so it is the Synapse status-convergence
writer returning only the error. -/
def utilsUpdateSynapseStatus (w : World) (s : Synapse) : Option KErr × World :=
  match updateSynapseStatus w s with
  | ((err, _), w') => (err, w')

/-- `MautrixSignalReconciler.fetchSynapseInstance`: Get the referenced
Synapse at the identity computed from the bridge's reference. -/
def fetchSynapseInstance (w : World) (ms : MautrixSignal) : Except KErr Synapse :=
  getSyn w ⟨ms.spec.synapse.name, computeNamespace ms.namespc ms.spec.synapse.namespc⟩

/-- `MautrixSignalReconciler.triggerSynapseReconciliation`: read the
target Synapse, set its NeedsReconcile status flag, and commit through
the status-convergence writer; any failure becomes `RequeueWithError`. -/
def triggerSynapseReconciliation (w : World) (req : NName) : SubResult × World :=
  match getLatestMautrixSignal w req with
  | ((r0, e0), ms) =>
    if shouldHaltOrRequeue r0 e0 then ((r0, e0), w)
    else
      match fetchSynapseInstance w ms with
      | .error e => (requeueWithError e, w)
      | .ok s =>
        let s' := { s with status := { s.status with needsReconcile := true } }
        match utilsUpdateSynapseStatus w s' with
        | (some e, w') => (requeueWithError e, w')
        | (none, w') => (continueReconciling, w')

/-- A subreconciler of the MautrixSignal pipeline. -/
def MsStep : Type := World → NName → SubResult × World

/-- The subreconcilers of the MautrixSignal pipeline whose bodies the
claims do not depend on. -/
structure MsStepFns where
  buildMautrixSignalStatus : MsStep
  copyInputMautrixSignalConfigMap : MsStep
  configureMautrixSignalConfigMap : MsStep
  reconcileMautrixSignalConfigMap : MsStep
  reconcileMautrixSignalServiceAccount : MsStep
  reconcileMautrixSignalRoleBinding : MsStep
  reconcileSignaldPVC : MsStep
  reconcileSignaldDeployment : MsStep
  reconcileMautrixSignalService : MsStep
  reconcileMautrixSignalPVC : MsStep
  reconcileMautrixSignalDeployment : MsStep

/-- `MautrixSignalReconciler.Reconcile`: fetch the MautrixSignal, build
the subreconciler list from its Spec/Status, and run it sequentially. -/
def mautrixSignalReconcile (fns : MsStepFns) (w : World) (req : NName) :
    (CtrlResult × Option KErr) × World :=
  match getLatestMautrixSignal w req with
  | ((r0, e0), ms) =>
    if shouldHaltOrRequeue r0 e0 then (evaluate r0 e0, w)
    else
      let steps1 : List (SubStep World) :=
        [atReq triggerSynapseReconciliation req, atReq fns.buildMautrixSignalStatus req]
      let steps2 := steps1 ++
        (if ms.spec.configMap.name ≠ "" then
          [atReq fns.copyInputMautrixSignalConfigMap req,
           atReq fns.configureMautrixSignalConfigMap req]
        else [atReq fns.reconcileMautrixSignalConfigMap req])
      let steps3 := steps2 ++
        (if ms.status.isOpenshift then
          [atReq fns.reconcileMautrixSignalServiceAccount req,
           atReq fns.reconcileMautrixSignalRoleBinding req]
        else [])
      let steps4 := steps3 ++
        [atReq fns.reconcileSignaldPVC req,
         atReq fns.reconcileSignaldDeployment req,
         atReq fns.reconcileMautrixSignalService req,
         atReq fns.reconcileMautrixSignalPVC req,
         atReq fns.reconcileMautrixSignalDeployment req]
      runSubreconcilers steps4 w

/-- A value of a parsed semi-structured configuration document.  The
constructors track the dynamic Go types the mutation code inspects with
type assertions: `strList` is a Go `[]string`, `ymap` a generic map
(`map[string]interface{}` / `map[interface{}]interface{}` with string
keys), `smap` a Go `map[string]string`, `vlist` a generic list. -/
inductive YVal where
  | str (s : String)
  | num (n : Int)
  | bool (b : Bool)
  | strList (l : List String)
  | vlist (l : List YVal)
  | ymap (m : List (String × YVal))
  | smap (m : List (String × String))

/-- A document tree: the top-level map of a parsed YAML artifact. -/
def YMap : Type := List (String × YVal)

/-- First-match lookup in a document map. -/
def lookupY : YMap → String → Option YVal
  | [], _ => none
  | (k, v) :: rest, key => if k = key then some v else lookupY rest key

/-- Map assignment `m[key] = v`: replace the first binding, or append. -/
def setY : YMap → String → YVal → YMap
  | [], key, v => [(key, v)]
  | (k, v') :: rest, key, v =>
    if k = key then (key, v) :: rest else (k, v') :: setY rest key v

/-- `SynapseReconciler.addAppServiceToHomeserver`: type-assert the
`app_service_config_files` value to `[]string`; on success append the
given path to it, otherwise overwrite the key with the one-element
list holding the path. -/
def addAppServiceToHomeserver (homeserver : YMap) (configFilePath : String) : YMap :=
  match lookupY homeserver "app_service_config_files" with
  | some (.strList l) =>
    setY homeserver "app_service_config_files" (.strList (l ++ [configFilePath]))
  | _ => setY homeserver "app_service_config_files" (.strList [configFilePath])

/-- `SynapseReconciler.updateHomeserverWithHeisenbridgeInfos`: register the
Heisenbridge configuration file as an app service. -/
def updateHomeserverWithHeisenbridgeInfos (homeserver : YMap) : YMap :=
  addAppServiceToHomeserver homeserver "/data-heisenbridge/heisenbridge.yaml"

/-- `SynapseReconciler.updateHomeserverWithMautrixSignalInfos`: register
the mautrix-signal registration file as an app service. -/
def updateHomeserverWithMautrixSignalInfos (homeserver : YMap) : YMap :=
  addAppServiceToHomeserver homeserver "/data-mautrixsignal/registration.yaml"

/-- The `app_service_config_files` value read back as a Go `[]string`
(the empty list when the key is absent or holds another type). -/
def ascfList (homeserver : YMap) : List String :=
  match lookupY homeserver "app_service_config_files" with
  | some (.strList l) => l
  | _ => []

/-- Modelled from the spec: `helpers/utils.ComputeFQDN` is not among the
provided sources; the spec promises "a stable identity contract for Child
Objects (deterministic naming from owner identity)", the in-cluster
service FQDN built from name and namespace. -/
def computeFQDN (name namespc : String) : String :=
  name ++ "." ++ namespc ++ "." ++ "svc.cluster.local"

/-- `MautrixSignalReconciler.updateMautrixSignalData`: type-assert and
rewrite the owned sections of the mautrix-signal `config.yaml` tree —
homeserver.address, homeserver.domain, appservice.address,
signal.socket_path, bridge.permissions and
logging.handlers.file.filename — failing on the first section that is
absent or not a map. -/
def updateMautrixSignalData (ms : MautrixSignal) (config : YMap) : Except String YMap :=
  let synapseName := ms.spec.synapse.name
  let synapseNamespace := computeNamespace ms.namespc ms.spec.synapse.namespc
  let synapseServerName := ms.status.synapse.serverName
  match lookupY config "homeserver" with
  | some (.ymap configHomeserver) =>
    let hs' := setY (setY configHomeserver "address"
        (.str ("http://" ++ computeFQDN synapseName synapseNamespace ++ ":8008")))
      "domain" (.str synapseServerName)
    let config := setY config "homeserver" (.ymap hs')
    match lookupY config "appservice" with
    | some (.ymap configAppservice) =>
      let as' := setY configAppservice "address"
        (.str ("http://" ++ computeFQDN ms.name ms.namespc ++ ":29328"))
      let config := setY config "appservice" (.ymap as')
      match lookupY config "signal" with
      | some (.ymap configSignal) =>
        let sg' := setY configSignal "socket_path" (.str "/signald/signald.sock")
        let config := setY config "signal" (.ymap sg')
        match lookupY config "bridge" with
        | some (.ymap configBridge) =>
          let br' := setY configBridge "permissions"
            (.smap [("*", "relay"), (synapseServerName, "user"),
                    ("@admin:" ++ synapseServerName, "admin")])
          let config := setY config "bridge" (.ymap br')
          match lookupY config "logging" with
          | some (.ymap configLogging) =>
            match lookupY configLogging "handlers" with
            | some (.ymap configLoggingHandlers) =>
              match lookupY configLoggingHandlers "file" with
              | some (.ymap configLoggingHandlersFile) =>
                let fl' := setY configLoggingHandlersFile "filename"
                  (.str "/data/mautrix-signal.log")
                let hd' := setY configLoggingHandlers "file" (.ymap fl')
                let lg' := setY configLogging "handlers" (.ymap hd')
                .ok (setY config "logging" (.ymap lg'))
              | _ => .error "cannot parse mautrix-signal config.yaml: error parsing 'logging/handlers/file' section"
            | _ => .error "cannot parse mautrix-signal config.yaml: error parsing 'logging/handlers' section"
          | _ => .error "cannot parse mautrix-signal config.yaml: error parsing 'logging' section"
        | _ => .error "cannot parse mautrix-signal config.yaml: error parsing 'bridge' section"
      | _ => .error "cannot parse mautrix-signal config.yaml: error parsing 'signal' section"
    | _ => .error "cannot parse mautrix-signal config.yaml: error parsing 'appservice' section"
  | _ => .error "cannot parse mautrix-signal config.yaml: error parsing 'homeserver' section"

/-- Descend a key path through nested document maps from a value. -/
def lookupPathV : YVal → List String → Option YVal
  | v, [] => some v
  | .ymap m, k :: rest =>
    match lookupY m k with
    | some v' => lookupPathV v' rest
    | none => none
  | _, _ :: _ => none

/-- Descend a key path from the top-level document map. -/
def lookupPathT (t : YMap) (p : List String) : Option YVal :=
  lookupPathV (.ymap t) p

/-- Is the first path a (not necessarily proper) leading segment of the
second? -/
def isLeadingSegment : List String → List String → Bool
  | [], _ => true
  | _ :: _, [] => false
  | a :: as, b :: bs => a = b && isLeadingSegment as bs

/-- The two paths touch: one is a leading segment of the other. -/
def touches (p q : List String) : Bool :=
  isLeadingSegment p q || isLeadingSegment q p

/-- The key paths `updateMautrixSignalData` owns. -/
def ownedPaths : List (List String) :=
  [["homeserver", "address"],
   ["homeserver", "domain"],
   ["appservice", "address"],
   ["signal", "socket_path"],
   ["bridge", "permissions"],
   ["logging", "handlers", "file", "filename"]]

theorem lookupN_setN_self {α : Type} (l : List (NName × α)) (k : NName) (v : α) :
    lookupN (setN l k v) k = some v := by
  induction l with
  | nil => simp [setN, lookupN]
  | cons hd tl ih =>
    rcases hd with ⟨k', v'⟩
    by_cases h : k' = k
    · simp [setN, lookupN, h]
    · simp [setN, lookupN, h, ih]

theorem lookupY_setY (m : YMap) (k k' : String) (v : YVal) :
    lookupY (setY m k v) k' = if k = k' then some v else lookupY m k' := by
  induction m with
  | nil => simp [setY, lookupY]
  | cons hd tl ih =>
    rcases hd with ⟨k0, v0⟩
    by_cases h0 : k0 = k
    · subst h0
      by_cases h : k0 = k' <;> simp [setY, lookupY, h]
    · by_cases h : k0 = k'
      · subst h
        have hk : ¬k = k0 := fun hh => h0 hh.symm
        simp [setY, lookupY, h0, hk]
      · simp [setY, lookupY, h0, h, ih]

/-- A step that returns the Continue outcome and bumps the counter
(used to instantiate the executor theorem at a concrete input). -/
def demoContinueStep : SubStep Nat := fun n => (continueReconciling, n + 1)

/-- A step that requests an immediate requeue. -/
def demoRequeueStep : SubStep Nat := fun n => (requeueNow, n + 10)

/-- A later step that would visibly change the state if it ran. -/
def demoLaterStep : SubStep Nat := fun n => (doNotRequeue, n + 100)

/-- C1: the pipeline executor runs the steps in list order and stops at
the first step whose result is not plain continuation: whenever every
step of a prefix returns the Continue outcome and the next step returns a
halt-or-requeue outcome or an error, the executor's return value is that
step's outcome and error passed through `Evaluate`, and the final state is
the one that step produced — the steps after it are never invoked,
whatever they are. -/
theorem claim_C1_executor_stops_at_first_halt {σ : Type} (pre post : List (SubStep σ))
    (f : SubStep σ) (s s' s'' : σ) (r : Option CtrlResult) (e : Option KErr)
    (hpre : runAllContinue pre s = some s')
    (hf : f s' = ((r, e), s''))
    (hhalt : shouldHaltOrRequeue r e = true) :
    runSubreconcilers (pre ++ f :: post) s = (evaluate r e, s'') := by
  induction pre generalizing s with
  | nil =>
    simp only [runAllContinue, Option.some.injEq] at hpre
    subst hpre
    simp only [List.nil_append, runSubreconcilers, hf, hhalt, if_true]
  | cons g rest ih =>
    rw [List.cons_append]
    simp only [runAllContinue] at hpre
    simp only [runSubreconcilers]
    rcases hg : g s with ⟨⟨rg, eg⟩, wg⟩
    rw [hg] at hpre
    cases hh : shouldHaltOrRequeue rg eg with
    | true => simp [hh] at hpre
    | false =>
      simp only [hh, Bool.false_eq_true, if_false] at hpre ⊢
      exact ih wg hpre

/-- Witness for C1 at a concrete step list: one continuing step, then a
requeueing step, then a later step that is never run. -/
theorem claim_C1_witness :
    runSubreconcilers ([demoContinueStep] ++ demoRequeueStep :: [demoLaterStep]) 0 =
      (evaluate (some ⟨true, 0⟩) none, 11) :=
  claim_C1_executor_stops_at_first_halt [demoContinueStep] [demoLaterStep]
    demoRequeueStep 0 1 11 (some ⟨true, 0⟩) none rfl rfl rfl

/-- C2: the status-convergence writers re-read the stored entity by the
candidate's identity; when the candidate Status equals the fresh Status
they perform no write and report `patched = false`; when the Statuses
differ (and the patch call succeeds) they merge-patch the Status
subresource only — the stored Spec stays the freshly read one — and
report `patched = true`.  Both the Synapse and the MautrixSignal writers
are covered. -/
theorem claim_C2_status_writer_diff_then_patch (w : World)
    (syn currentS : Synapse) (ms currentM : MautrixSignal)
    (hgs : getSyn w ⟨syn.name, syn.namespc⟩ = .ok currentS)
    (hgm : getMs w ⟨ms.name, ms.namespc⟩ = .ok currentM)
    (hps : w.patchSynErr = none) (hpm : w.patchMsErr = none) :
    (syn.status = currentS.status →
      updateSynapseStatus w syn = ((none, false), w)) ∧
    (syn.status ≠ currentS.status →
      updateSynapseStatus w syn =
        ((none, true),
         { w with synapses := (setN w.synapses ⟨syn.name, syn.namespc⟩
             { currentS with status := syn.status }) })) ∧
    (ms.status = currentM.status →
      updateMautrixSignalStatus w ms = ((none, false), w)) ∧
    (ms.status ≠ currentM.status →
      updateMautrixSignalStatus w ms =
        ((none, true),
         { w with mautrixsignals := (setN w.mautrixsignals ⟨ms.name, ms.namespc⟩
             { currentM with status := ms.status }) })) := by
  refine ⟨fun heq => ?_, fun hne => ?_, fun heq => ?_, fun hne => ?_⟩ <;>
    simp_all [updateSynapseStatus, updateMautrixSignalStatus]

/-- A concrete stored Synapse for the C2 witness. -/
def c2Synapse : Synapse :=
  { zeroSynapse with name := "syn", namespc := "ns" }

/-- A concrete stored MautrixSignal for the C2 witness. -/
def c2Ms : MautrixSignal :=
  { zeroMautrixSignal with name := "ms", namespc := "ns" }

/-- A concrete world holding the C2 witness objects. -/
def c2World : World :=
  { synapses := [(⟨"syn", "ns"⟩, c2Synapse)]
    mautrixsignals := [(⟨"ms", "ns"⟩, c2Ms)]
    heisenbridges := []
    secrets := []
    getSynErr := none, getMsErr := none, getSecretErr := none
    patchSynErr := none, patchMsErr := none
    listPostgresErr := false, listHeisenErr := false, listMsErr := false }

/-- A candidate Synapse whose Status differs from the stored one. -/
def c2Candidate : Synapse :=
  { c2Synapse with status := { c2Synapse.status with state := "RUNNING" } }

/-- Witness for C2: at the concrete world, a differing candidate Status is
patched into the Status subresource with `patched = true`, and an equal
candidate Status causes no write with `patched = false`. -/
theorem claim_C2_witness :
    updateSynapseStatus c2World c2Candidate =
      ((none, true),
       { c2World with synapses := (setN c2World.synapses ⟨"syn", "ns"⟩
           { c2Synapse with status := c2Candidate.status }) }) ∧
    updateMautrixSignalStatus c2World c2Ms = ((none, false), c2World) := by
  have h := claim_C2_status_writer_diff_then_patch c2World
    c2Candidate c2Synapse c2Ms c2Ms rfl rfl rfl rfl
  exact ⟨h.2.1 (by decide), h.2.2.1 rfl⟩

/-- C10: `updateSynapseStatusDatabase` errors exactly when one of the five
Secret keys host, port, dbname, user, password is absent; on an error the
Synapse is returned completely unchanged; on success it fills
`Status.DatabaseConnectionInfo` with host:port, the database name
"synapse", the user, the base64-encoded password, and state READY. -/
theorem claim_C10_status_database (s : Synapse) (data : List (String × String)) :
    ((updateSynapseStatusDatabase s data).1.isSome ↔
      (lookupStr data "host" = none ∨ lookupStr data "port" = none ∨
       lookupStr data "dbname" = none ∨ lookupStr data "user" = none ∨
       lookupStr data "password" = none)) ∧
    ((updateSynapseStatusDatabase s data).1.isSome →
      (updateSynapseStatusDatabase s data).2 = s) ∧
    (∀ host port dbname user password,
      lookupStr data "host" = some host → lookupStr data "port" = some port →
      lookupStr data "dbname" = some dbname → lookupStr data "user" = some user →
      lookupStr data "password" = some password →
      updateSynapseStatusDatabase s data =
        (none, { s with status := { s.status with databaseConnectionInfo :=
          { connectionURL := host ++ ":" ++ port
            databaseName := "synapse"
            user := user
            password := base64encode password
            state := "READY" } } })) := by
  refine ⟨?_, ?_, ?_⟩
  · unfold updateSynapseStatusDatabase
    cases lookupStr data "host" <;> cases lookupStr data "port" <;>
      cases lookupStr data "dbname" <;> cases lookupStr data "user" <;>
      cases lookupStr data "password" <;> simp
  · unfold updateSynapseStatusDatabase
    cases lookupStr data "host" <;> cases lookupStr data "port" <;>
      cases lookupStr data "dbname" <;> cases lookupStr data "user" <;>
      cases lookupStr data "password" <;> simp
  · intro host port dbname user password h1 h2 h3 h4 h5
    unfold updateSynapseStatusDatabase
    rw [h1, h2, h3, h4, h5]

/-- A fully populated PostgreSQL Secret for the C10 witness. -/
def c10Data : List (String × String) :=
  [("host", "db.example"), ("port", "5432"), ("dbname", "synapse"),
   ("user", "synapse"), ("password", "pw")]

/-- Witness for C10: on a Secret holding all five keys the connection info
is filled as stated, and dropping the user key makes the function error
while leaving the Synapse unchanged. -/
theorem claim_C10_witness :
    updateSynapseStatusDatabase zeroSynapse c10Data =
      (none, { zeroSynapse with status := { zeroSynapse.status with databaseConnectionInfo :=
        { connectionURL := "db.example" ++ ":" ++ "5432"
          databaseName := "synapse"
          user := "synapse"
          password := base64encode "pw"
          state := "READY" } } }) ∧
    (updateSynapseStatusDatabase zeroSynapse [("host", "h")]).1.isSome = true ∧
    (updateSynapseStatusDatabase zeroSynapse [("host", "h")]).2 = zeroSynapse := by
  refine ⟨?_, ?_, ?_⟩
  · exact (claim_C10_status_database zeroSynapse c10Data).2.2
      "db.example" "5432" "synapse" "synapse" "pw" rfl rfl rfl rfl rfl
  · exact ((claim_C10_status_database zeroSynapse [("host", "h")]).1.mpr
      (Or.inr (Or.inl rfl))).symm ▸ rfl
  · exact (claim_C10_status_database zeroSynapse [("host", "h")]).2.1
      ((claim_C10_status_database zeroSynapse [("host", "h")]).1.mpr (Or.inr (Or.inl rfl)))

theorem updateSynapseStatus_commit (w : World) (syn current : Synapse)
    (hw : w.getSynErr = none)
    (hl : lookupN w.synapses ⟨syn.name, syn.namespc⟩ = some current)
    (hp : w.patchSynErr = none) :
    (updateSynapseStatus w syn).1.1 = none ∧
    lookupN (updateSynapseStatus w syn).2.synapses ⟨syn.name, syn.namespc⟩ =
      some { current with status := syn.status } := by
  unfold updateSynapseStatus
  simp only [getSyn, hw, hl, hp]
  by_cases h : syn.status = current.status
  · simp only [h, ne_eq, not_true_eq_false, if_false]
    refine ⟨trivial, ?_⟩
    exact hl
  · simp only [ne_eq, h, not_false_eq_true, if_true]
    exact ⟨trivial, lookupN_setN_self _ _ _⟩

theorem getLatestSynapse_found (w : World) (req : NName) (s : Synapse)
    (hw : w.getSynErr = none) (hl : lookupN w.synapses req = some s) :
    getLatestSynapse w req = (continueReconciling, s) := by
  simp [getLatestSynapse, getSyn, hw, hl]

/-- C6: whenever `setSynapseStatusAsRunning` commits, the status stored
for the reconciled Synapse is exactly the freshly fetched one with the
lifecycle state set to RUNNING, the reason set to the empty string, and
NeedsReconcile set to false — no other status field is touched — and the
step reports no error. -/
theorem claim_C6_running_status_fields (w : World) (req : NName) (s : Synapse)
    (hw : w.getSynErr = none) (hl : lookupN w.synapses req = some s)
    (hid : (⟨s.name, s.namespc⟩ : NName) = req) (hp : w.patchSynErr = none) :
    lookupN (setSynapseStatusAsRunning w req).2.synapses req =
      some { s with status :=
        { s.status with needsReconcile := false, state := "RUNNING", reason := "" } } ∧
    (setSynapseStatusAsRunning w req).1.2 = none := by
  unfold setSynapseStatusAsRunning
  rw [getLatestSynapse_found w req s hw hl]
  simp only [continueReconciling, shouldHaltOrRequeue, Option.isSome_none, Bool.or_self,
    Bool.false_eq_true, if_false]
  have hcommit := updateSynapseStatus_commit w
    { s with status := { s.status with needsReconcile := false, state := "RUNNING", reason := "" } }
    s hw (by simpa [hid] using hl) hp
  rcases hres : updateSynapseStatus w
      { s with status := { s.status with needsReconcile := false, state := "RUNNING", reason := "" } }
    with ⟨⟨err, patched⟩, w'⟩
  rw [hres] at hcommit
  rcases hcommit with ⟨h1, h2⟩
  simp only at h1 h2
  subst h1
  cases patched <;>
    simp_all [requeueNow, continueReconciling, hid]

/-- A stored Synapse that is not yet Running, for the C6 witness. -/
def c6Synapse : Synapse :=
  { zeroSynapse with
    name := "syn6"
    namespc := "ns"
    status :=
      { zeroSynapse.status with state := "PENDING", reason := "waiting", needsReconcile := true } }

/-- A concrete world holding the C6 witness Synapse. -/
def c6World : World :=
  { synapses := [(⟨"syn6", "ns"⟩, c6Synapse)]
    mautrixsignals := [], heisenbridges := [], secrets := []
    getSynErr := none, getMsErr := none, getSecretErr := none
    patchSynErr := none, patchMsErr := none
    listPostgresErr := false, listHeisenErr := false, listMsErr := false }

/-- Witness for C6 at the concrete world: the stored status becomes
RUNNING with empty reason and NeedsReconcile cleared. -/
theorem claim_C6_witness :
    lookupN (setSynapseStatusAsRunning c6World ⟨"syn6", "ns"⟩).2.synapses ⟨"syn6", "ns"⟩ =
      some { c6Synapse with status := { c6Synapse.status with
        needsReconcile := false, state := "RUNNING", reason := "" } } ∧
    (setSynapseStatusAsRunning c6World ⟨"syn6", "ns"⟩).1.2 = none :=
  claim_C6_running_status_fields c6World ⟨"syn6", "ns"⟩ c6Synapse rfl (by decide) rfl rfl

theorem getLatestMautrixSignal_found (w : World) (req : NName) (ms : MautrixSignal)
    (hw : w.getMsErr = none) (hl : lookupN w.mautrixsignals req = some ms) :
    getLatestMautrixSignal w req = (continueReconciling, ms) := by
  simp [getLatestMautrixSignal, getMs, hw, hl]

/-- C7: the dependency-trigger step of the mautrix-signal pipeline reads
the referenced Synapse by its computed identity, sets its NeedsReconcile
status flag to true and commits it through the status-convergence writer,
returning the Continue outcome; when fetching the target fails, or when
the commit's status patch fails, the step returns a requeue-with-error
outcome carrying that error. -/
theorem claim_C7_trigger_synapse_reconciliation (w : World) (req : NName)
    (ms : MautrixSignal) (s : Synapse) (m pm : String)
    (hms : w.getMsErr = none) (hlm : lookupN w.mautrixsignals req = some ms) :
    (w.getSynErr = none →
      lookupN w.synapses
          ⟨ms.spec.synapse.name, computeNamespace ms.namespc ms.spec.synapse.namespc⟩ = some s →
      (⟨s.name, s.namespc⟩ : NName) =
          ⟨ms.spec.synapse.name, computeNamespace ms.namespc ms.spec.synapse.namespc⟩ →
      w.patchSynErr = none →
      (triggerSynapseReconciliation w req).1 = continueReconciling ∧
      lookupN (triggerSynapseReconciliation w req).2.synapses
          ⟨ms.spec.synapse.name, computeNamespace ms.namespc ms.spec.synapse.namespc⟩ =
        some { s with status := { s.status with needsReconcile := true } }) ∧
    (w.getSynErr = some m →
      triggerSynapseReconciliation w req = (requeueWithError (.other m), w)) ∧
    (w.getSynErr = none →
      lookupN w.synapses
          ⟨ms.spec.synapse.name, computeNamespace ms.namespc ms.spec.synapse.namespc⟩ = some s →
      (⟨s.name, s.namespc⟩ : NName) =
          ⟨ms.spec.synapse.name, computeNamespace ms.namespc ms.spec.synapse.namespc⟩ →
      s.status.needsReconcile = false → w.patchSynErr = some pm →
      triggerSynapseReconciliation w req = (requeueWithError (.other pm), w)) := by
  refine ⟨fun hw hl hid hp => ?_, fun hw => ?_, fun hw hl hid hflag hp => ?_⟩
  · unfold triggerSynapseReconciliation
    rw [getLatestMautrixSignal_found w req ms hms hlm]
    simp only [continueReconciling, shouldHaltOrRequeue, Option.isSome_none, Bool.or_self,
      Bool.false_eq_true, if_false]
    have hfetch : fetchSynapseInstance w ms = .ok s := by
      simp [fetchSynapseInstance, getSyn, hw, hl]
    simp only [hfetch]
    have hcommit := updateSynapseStatus_commit w
      { s with status := { s.status with needsReconcile := true } } s hw
      (by simpa [hid] using hl) hp
    unfold utilsUpdateSynapseStatus
    rcases hres : updateSynapseStatus w
        { s with status := { s.status with needsReconcile := true } }
      with ⟨⟨err, patched⟩, w'⟩
    rw [hres] at hcommit
    rcases hcommit with ⟨h1, h2⟩
    simp only at h1 h2
    subst h1
    simp only [hres]
    exact ⟨trivial, by simpa [hid] using h2⟩
  · unfold triggerSynapseReconciliation
    rw [getLatestMautrixSignal_found w req ms hms hlm]
    simp [continueReconciling, shouldHaltOrRequeue, fetchSynapseInstance, getSyn, hw]
  · unfold triggerSynapseReconciliation
    rw [getLatestMautrixSignal_found w req ms hms hlm]
    simp only [continueReconciling, shouldHaltOrRequeue, Option.isSome_none, Bool.or_self,
      Bool.false_eq_true, if_false]
    have hfetch : fetchSynapseInstance w ms = .ok s := by
      simp [fetchSynapseInstance, getSyn, hw, hl]
    rw [hfetch]
    have hne : ({ s with status := { s.status with needsReconcile := true } } : Synapse).status
        ≠ s.status := by
      intro hh
      have := congrArg SynapseStatus.needsReconcile hh
      simp [hflag] at this
    unfold utilsUpdateSynapseStatus updateSynapseStatus
    simp [getSyn, hw, hid, hl, hne, hp]

/-- The target Synapse of the C7 witness, not yet flagged. -/
def c7Synapse : Synapse :=
  { zeroSynapse with name := "target", namespc := "ns" }

/-- The MautrixSignal of the C7 witness, referencing `target` with an
empty reference namespace (so the bridge's own namespace is used). -/
def c7Ms : MautrixSignal :=
  { zeroMautrixSignal with
    name := "ms7"
    namespc := "ns"
    spec := { synapse := { name := "target", namespc := "" }
              configMap := { name := "", namespc := "" } } }

/-- A concrete world holding the C7 witness objects. -/
def c7World : World :=
  { synapses := [(⟨"target", "ns"⟩, c7Synapse)]
    mautrixsignals := [(⟨"ms7", "ns"⟩, c7Ms)]
    heisenbridges := [], secrets := []
    getSynErr := none, getMsErr := none, getSecretErr := none
    patchSynErr := none, patchMsErr := none
    listPostgresErr := false, listHeisenErr := false, listMsErr := false }

/-- Witness for C7 at the concrete world: the step continues and the
stored target Synapse has NeedsReconcile set. -/
theorem claim_C7_witness :
    (triggerSynapseReconciliation c7World ⟨"ms7", "ns"⟩).1 = continueReconciling ∧
    lookupN (triggerSynapseReconciliation c7World ⟨"ms7", "ns"⟩).2.synapses
        ⟨c7Ms.spec.synapse.name, computeNamespace c7Ms.namespc c7Ms.spec.synapse.namespc⟩ =
      some { c7Synapse with status := { c7Synapse.status with needsReconcile := true } } :=
  (claim_C7_trigger_synapse_reconciliation c7World ⟨"ms7", "ns"⟩ c7Ms c7Synapse "" ""
    rfl (by decide)).1 rfl (by decide) (by decide) rfl

/-- The same world with the two List failures removed and the items they
would have suppressed removed with them: listing then genuinely returns
no items where it used to fail. -/
def clearListErrors (w : World) : World :=
  { w with
    listHeisenErr := false
    listMsErr := false
    heisenbridges := if w.listHeisenErr then [] else w.heisenbridges
    mautrixsignals := if w.listMsErr then [] else w.mautrixsignals }

theorem updateSynapseStatus_clearListErrors (w : World) (s : Synapse) :
    (updateSynapseStatus (clearListErrors w) s).1 = (updateSynapseStatus w s).1 ∧
    (updateSynapseStatus (clearListErrors w) s).2.synapses =
      (updateSynapseStatus w s).2.synapses := by
  unfold updateSynapseStatus
  have hg : getSyn (clearListErrors w) ⟨s.name, s.namespc⟩ = getSyn w ⟨s.name, s.namespc⟩ := rfl
  rw [hg]
  cases getSyn w ⟨s.name, s.namespc⟩ with
  | error e => exact ⟨by trivial, by trivial⟩
  | ok current =>
    by_cases h : s.status = current.status
    · simp only [h, ne_eq, not_true_eq_false, if_false]
      exact ⟨by trivial, by trivial⟩
    · simp only [ne_eq, h, not_false_eq_true, if_true]
      have hp : (clearListErrors w).patchSynErr = w.patchSynErr := rfl
      rw [hp]
      cases w.patchSynErr <;> exact ⟨by trivial, by trivial⟩

/-- C8: `updateSynapseStatusBridges` discards the Heisenbridge and
MautrixSignal List errors: its outcome/error pair and its effect on the
stored Synapses are exactly those of the same step run on a world where
the two List calls succeed and return no items in place of the failed
ones — so a List failure behaves as "no items" and its error never
appears in the step's returned outcome or error. -/
theorem claim_C8_list_errors_discarded (w : World) (req : NName) :
    (updateSynapseStatusBridges w req).1 =
      (updateSynapseStatusBridges (clearListErrors w) req).1 ∧
    (updateSynapseStatusBridges w req).2.synapses =
      (updateSynapseStatusBridges (clearListErrors w) req).2.synapses := by
  unfold updateSynapseStatusBridges
  have hg : getLatestSynapse (clearListErrors w) req = getLatestSynapse w req := rfl
  rw [hg]
  rcases getLatestSynapse w req with ⟨⟨r0, e0⟩, s⟩
  cases hh : shouldHaltOrRequeue r0 e0 with
  | true => simp only [hh, if_true]; exact ⟨by trivial, by trivial⟩
  | false =>
    simp only [hh, Bool.false_eq_true, if_false]
    have hlh : listHeisenbridges (clearListErrors w) = listHeisenbridges w := by
      cases h : w.listHeisenErr <;> simp [listHeisenbridges, clearListErrors, h]
    have hlm : listMautrixSignals (clearListErrors w) = listMautrixSignals w := by
      cases h : w.listMsErr <;> simp [listMautrixSignals, clearListErrors, h]
    rw [hlh, hlm]
    have hc := updateSynapseStatus_clearListErrors w
      ((listMautrixSignals w).foldl msFlagStep ((listHeisenbridges w).foldl heisenFlagStep s))
    rcases h1 : updateSynapseStatus w
        ((listMautrixSignals w).foldl msFlagStep ((listHeisenbridges w).foldl heisenFlagStep s))
      with ⟨⟨err1, p1⟩, w1⟩
    rcases h2 : updateSynapseStatus (clearListErrors w)
        ((listMautrixSignals w).foldl msFlagStep ((listHeisenbridges w).foldl heisenFlagStep s))
      with ⟨⟨err2, p2⟩, w2⟩
    rw [h1, h2] at hc
    obtain ⟨hce, hcs⟩ := hc
    simp at hce hcs
    obtain ⟨he, hpp⟩ := hce
    subst he
    subst hpp
    cases err2 with
    | some e => exact ⟨rfl, hcs.symm⟩
    | none => cases p2 <;> exact ⟨by trivial, hcs.symm⟩

/-- C5: when the initial fetch of the entity being reconciled reports
not-found, the run returns the do-not-requeue result with a nil error
(benign absence) and the world is untouched; when the fetch fails with
any other error, the run returns the requeue result carrying exactly that
error.  Both the Synapse and the MautrixSignal reconcilers are covered. -/
theorem claim_C5_initial_fetch (fns : SynapseStepFns) (mfns : MsStepFns)
    (w : World) (req : NName) (m : String) :
    (w.getSynErr = none → lookupN w.synapses req = none →
      synapseReconcile fns w req = ((⟨false, 0⟩, none), w)) ∧
    (w.getSynErr = some m →
      synapseReconcile fns w req = ((⟨true, 0⟩, some (.other m)), w)) ∧
    (w.getMsErr = none → lookupN w.mautrixsignals req = none →
      mautrixSignalReconcile mfns w req = ((⟨false, 0⟩, none), w)) ∧
    (w.getMsErr = some m →
      mautrixSignalReconcile mfns w req = ((⟨true, 0⟩, some (.other m)), w)) := by
  refine ⟨fun hw hl => ?_, fun hw => ?_, fun hw hl => ?_, fun hw => ?_⟩ <;>
    simp_all [synapseReconcile, mautrixSignalReconcile, getLatestSynapse, getLatestMautrixSignal,
      getSyn, getMs, KErr.isNotFound, shouldHaltOrRequeue, doNotRequeue, requeueWithError,
      evaluate]

/-- A Synapse pipeline step that continues without touching the world,
used to instantiate the reconcile theorems at concrete inputs. -/
def noopSynStep : SynStep := fun w _ => (continueReconciling, w)

/-- A concrete instantiation of the unmodeled Synapse steps. -/
def demoSynFns : SynapseStepFns :=
  { parseInputSynapseConfigMap := noopSynStep
    copyInputSynapseConfigMap := noopSynStep
    reconcileSynapseConfigMap := noopSynStep
    reconcilePostgresClusterConfigMap := noopSynStep
    reconcilePostgresClusterCR := noopSynStep
    updateSynapseConfigMapForPostgresCluster := noopSynStep
    updateSynapseConfigMapForHeisenbridge := noopSynStep
    updateSynapseConfigMapForMautrixSignal := noopSynStep
    reconcileSynapseServiceAccount := noopSynStep
    reconcileSynapseRoleBinding := noopSynStep
    reconcileSynapseService := noopSynStep
    reconcileSynapsePVC := noopSynStep
    reconcileSynapseDeployment := noopSynStep }

/-- A concrete instantiation of the unmodeled MautrixSignal steps. -/
def demoMsFns : MsStepFns :=
  { buildMautrixSignalStatus := noopSynStep
    copyInputMautrixSignalConfigMap := noopSynStep
    configureMautrixSignalConfigMap := noopSynStep
    reconcileMautrixSignalConfigMap := noopSynStep
    reconcileMautrixSignalServiceAccount := noopSynStep
    reconcileMautrixSignalRoleBinding := noopSynStep
    reconcileSignaldPVC := noopSynStep
    reconcileSignaldDeployment := noopSynStep
    reconcileMautrixSignalService := noopSynStep
    reconcileMautrixSignalPVC := noopSynStep
    reconcileMautrixSignalDeployment := noopSynStep }

/-- An empty world: every store is empty and no failure is injected. -/
def emptyWorld : World :=
  { synapses := [], mautrixsignals := [], heisenbridges := [], secrets := []
    getSynErr := none, getMsErr := none, getSecretErr := none
    patchSynErr := none, patchMsErr := none
    listPostgresErr := false, listHeisenErr := false, listMsErr := false }

/-- The empty world with a transient MautrixSignal Get failure injected. -/
def c5ErrWorld : World := { emptyWorld with getMsErr := some "boom" }

/-- Witness for C5 at concrete worlds: a missing Synapse yields
do-not-requeue with a nil error, and a transient MautrixSignal Get
failure yields requeue carrying that error. -/
theorem claim_C5_witness :
    synapseReconcile demoSynFns emptyWorld ⟨"absent", "ns"⟩ = ((⟨false, 0⟩, none), emptyWorld) ∧
    mautrixSignalReconcile demoMsFns c5ErrWorld ⟨"ms", "ns"⟩ =
      ((⟨true, 0⟩, some (.other "boom")), c5ErrWorld) :=
  ⟨(claim_C5_initial_fetch demoSynFns demoMsFns emptyWorld ⟨"absent", "ns"⟩ "boom").1 rfl rfl,
   (claim_C5_initial_fetch demoSynFns demoMsFns c5ErrWorld ⟨"ms", "ns"⟩ "boom").2.2.2 rfl⟩

/-- C3: when the Synapse Spec requests a new PostgreSQL instance and
listing PostgresCluster objects fails (postgres-operator not installed),
the reconciler stores a terminal failure — lifecycle state FAILED with
the non-empty reason string — through the status-convergence writer, and
the run returns the no-requeue result with a nil error (terminal Halt,
no retry loop). -/
theorem claim_C3_halt_on_missing_postgres (fns : SynapseStepFns) (w : World)
    (req : NName) (s : Synapse)
    (hw : w.getSynErr = none) (hl : lookupN w.synapses req = some s)
    (hid : (⟨s.name, s.namespc⟩ : NName) = req)
    (hpg : s.spec.createNewPostgreSQL = true)
    (hop : w.listPostgresErr = true)
    (hp : w.patchSynErr = none) :
    (synapseReconcile fns w req).1 = (⟨false, 0⟩, none) ∧
    lookupN (synapseReconcile fns w req).2.synapses req =
      some { s with status :=
        { s.status with state := "FAILED", reason := postgresMissingReason } } ∧
    postgresMissingReason ≠ "" := by
  have hcommit := updateSynapseStatus_commit w
    { s with status := { s.status with state := "FAILED", reason := postgresMissingReason } } s hw
    (by simpa [hid] using hl) hp
  unfold synapseReconcile
  rw [getLatestSynapse_found w req s hw hl]
  simp only [continueReconciling, shouldHaltOrRequeue, Option.isSome_none, Bool.or_self,
    Bool.false_eq_true, if_false]
  simp only [hpg, isPostgresOperatorInstalled, hop, Bool.not_true, Bool.not_false,
    Bool.true_and, if_true]
  unfold setFailedState
  rcases hres : updateSynapseStatus w
      { s with status := { s.status with state := "FAILED", reason := postgresMissingReason } }
    with ⟨⟨err, b⟩, w'⟩
  rw [hres] at hcommit
  obtain ⟨h1, h2⟩ := hcommit
  simp only at h1 h2
  simp only [hres]
  exact ⟨rfl, by simpa [hid] using h2, by decide⟩

/-- A Synapse requesting a new PostgreSQL instance, for the C3 witness. -/
def c3Synapse : Synapse :=
  { zeroSynapse with
    name := "syn3"
    namespc := "ns"
    spec := { zeroSynapse.spec with createNewPostgreSQL := true } }

/-- A world where the postgres-operator is absent (listing
PostgresCluster objects fails) and the C3 Synapse is stored. -/
def c3World : World :=
  { emptyWorld with synapses := [(⟨"syn3", "ns"⟩, c3Synapse)], listPostgresErr := true }

/-- Witness for C3 at the concrete world: the run halts without requeue
and the stored Synapse shows FAILED with the non-empty reason. -/
theorem claim_C3_witness :
    (synapseReconcile demoSynFns c3World ⟨"syn3", "ns"⟩).1 = (⟨false, 0⟩, none) ∧
    lookupN (synapseReconcile demoSynFns c3World ⟨"syn3", "ns"⟩).2.synapses ⟨"syn3", "ns"⟩ =
      some { c3Synapse with status :=
        { c3Synapse.status with state := "FAILED", reason := postgresMissingReason } } ∧
    postgresMissingReason ≠ "" :=
  claim_C3_halt_on_missing_postgres demoSynFns c3World ⟨"syn3", "ns"⟩ c3Synapse
    rfl (by decide) rfl rfl rfl rfl

theorem lookupY_addAppServiceToHomeserver (hs : YMap) (p : String) :
    lookupY (addAppServiceToHomeserver hs p) "app_service_config_files" =
      some (.strList (ascfList hs ++ [p])) := by
  unfold addAppServiceToHomeserver ascfList
  cases h : lookupY hs "app_service_config_files" with
  | none => simp [h, lookupY_setY]
  | some v => cases v <;> simp [h, lookupY_setY]

theorem ascfList_addAppServiceToHomeserver (hs : YMap) (p : String) :
    ascfList (addAppServiceToHomeserver hs p) = ascfList hs ++ [p] := by
  unfold ascfList
  rw [lookupY_addAppServiceToHomeserver]
  rfl

/-- C4 counterexample: applying `addAppServiceToHomeserver` twice with
the Heisenbridge configuration file path to the empty homeserver tree
does not equal applying it once — the second application appends the
path again instead of being a no-op. -/
theorem claim_C4_counterexample :
    addAppServiceToHomeserver
        (addAppServiceToHomeserver [] "/data-heisenbridge/heisenbridge.yaml")
        "/data-heisenbridge/heisenbridge.yaml" ≠
      addAppServiceToHomeserver [] "/data-heisenbridge/heisenbridge.yaml" := by
  intro h
  have hc := congrArg ascfList h
  rw [ascfList_addAppServiceToHomeserver, ascfList_addAppServiceToHomeserver] at hc
  simp [ascfList, lookupY] at hc

/-- C4 amended: the app-service registration mutation is not idempotent
on an in-memory tree: whenever the `app_service_config_files` key already
holds a Go `[]string` — which is always the case after one application —
the function appends the path again, so the second application extends
the list a second time instead of being a no-op. -/
theorem claim_C4_amended_double_append (hs : YMap) (p : String) :
    ascfList (addAppServiceToHomeserver (addAppServiceToHomeserver hs p) p) =
      ascfList hs ++ [p, p] := by
  rw [ascfList_addAppServiceToHomeserver, ascfList_addAppServiceToHomeserver,
    List.append_assoc]
  rfl

theorem lookupPathT_setY_ne {c : YMap} {k k1 : String} {v : YVal} {rest : List String}
    (hne : k ≠ k1) :
    lookupPathT (setY c k v) (k1 :: rest) = lookupPathT c (k1 :: rest) := by
  simp [lookupPathT, lookupPathV, lookupY_setY, hne]

theorem lookupPathT_setY_ymap_self (c : YMap) (k : String) (m : YMap) (rest : List String) :
    lookupPathT (setY c k (.ymap m)) (k :: rest) = lookupPathT m rest := by
  simp [lookupPathT, lookupPathV, lookupY_setY]

theorem lookupPathT_descend {c : YMap} {k : String} {m : YMap} (rest : List String)
    (h : lookupY c k = some (.ymap m)) :
    lookupPathT c (k :: rest) = lookupPathT m rest := by
  simp [lookupPathT, lookupPathV, h]

theorem touches_head (a : String) (o q : List String) :
    touches (a :: o) (a :: q) = touches o q := by
  simp [touches, isLeadingSegment]

theorem touches_nil_right {o : List String} (h : touches o [] = false) : False := by
  simp [touches, isLeadingSegment] at h

theorem ne_of_touches_single {b k2 : String} {rest2 : List String}
    (h : touches [b] (k2 :: rest2) = false) : b ≠ k2 := by
  intro he
  subst he
  simp [touches, isLeadingSegment] at h

/-- C9: the mautrix-signal configuration mutation touches only the keys
it owns: whenever `updateMautrixSignalData` succeeds, every key path that
neither is a leading segment of nor extends one of homeserver.address,
homeserver.domain, appservice.address, signal.socket_path,
bridge.permissions, logging.handlers.file.filename resolves to exactly
the same value in the output tree as in the input tree. -/
theorem claim_C9_owned_keys_frame (ms : MautrixSignal) (config config' : YMap)
    (h : updateMautrixSignalData ms config = .ok config')
    (p : List String)
    (hp : ∀ o ∈ ownedPaths, touches o p = false) :
    lookupPathT config' p = lookupPathT config p := by
  unfold updateMautrixSignalData at h
  split at h
  · simp only [] at h
    split at h
    · split at h
      · split at h
        · split at h
          · split at h
            · split at h
              · rename_i x1 hsm hhs x2 asm has x3 sgm hsg x4 brm hbr x5 lgm hlg x6 hdm hhd
                  x7 flm hfl
                injection h with hcf
                subst hcf
                rw [lookupY_setY] at has
                rw [if_neg (by decide)] at has
                rw [lookupY_setY] at hsg
                rw [if_neg (by decide)] at hsg
                rw [lookupY_setY] at hsg
                rw [if_neg (by decide)] at hsg
                rw [lookupY_setY] at hbr
                rw [if_neg (by decide)] at hbr
                rw [lookupY_setY] at hbr
                rw [if_neg (by decide)] at hbr
                rw [lookupY_setY] at hbr
                rw [if_neg (by decide)] at hbr
                rw [lookupY_setY] at hlg
                rw [if_neg (by decide)] at hlg
                rw [lookupY_setY] at hlg
                rw [if_neg (by decide)] at hlg
                rw [lookupY_setY] at hlg
                rw [if_neg (by decide)] at hlg
                rw [lookupY_setY] at hlg
                rw [if_neg (by decide)] at hlg
                cases p with
                | nil => exact absurd (hp ["homeserver", "address"] (by decide)) (by decide)
                | cons k1 rest =>
                  by_cases hH : k1 = "homeserver"
                  · subst hH
                    have h1 := hp ["homeserver", "address"] (by decide)
                    have h2 := hp ["homeserver", "domain"] (by decide)
                    rw [touches_head] at h1 h2
                    cases rest with
                    | nil => exact (touches_nil_right h1).elim
                    | cons k2 rest2 =>
                      have hne2a : "address" ≠ k2 := ne_of_touches_single h1
                      have hne2d : "domain" ≠ k2 := ne_of_touches_single h2
                      rw [lookupPathT_setY_ne (show "logging" ≠ "homeserver" by decide),
                        lookupPathT_setY_ne (show "bridge" ≠ "homeserver" by decide),
                        lookupPathT_setY_ne (show "signal" ≠ "homeserver" by decide),
                        lookupPathT_setY_ne (show "appservice" ≠ "homeserver" by decide),
                        lookupPathT_setY_ymap_self,
                        lookupPathT_setY_ne hne2d, lookupPathT_setY_ne hne2a,
                        lookupPathT_descend (k2 :: rest2) hhs]
                  · by_cases hA : k1 = "appservice"
                    · subst hA
                      have h3 := hp ["appservice", "address"] (by decide)
                      rw [touches_head] at h3
                      cases rest with
                      | nil => exact (touches_nil_right h3).elim
                      | cons k2 rest2 =>
                        have hne2a : "address" ≠ k2 := ne_of_touches_single h3
                        rw [lookupPathT_setY_ne (show "logging" ≠ "appservice" by decide),
                          lookupPathT_setY_ne (show "bridge" ≠ "appservice" by decide),
                          lookupPathT_setY_ne (show "signal" ≠ "appservice" by decide),
                          lookupPathT_setY_ymap_self,
                          lookupPathT_setY_ne hne2a,
                          lookupPathT_descend (k2 :: rest2) has]
                    · by_cases hS : k1 = "signal"
                      · subst hS
                        have h4 := hp ["signal", "socket_path"] (by decide)
                        rw [touches_head] at h4
                        cases rest with
                        | nil => exact (touches_nil_right h4).elim
                        | cons k2 rest2 =>
                          have hne2s : "socket_path" ≠ k2 := ne_of_touches_single h4
                          rw [lookupPathT_setY_ne (show "logging" ≠ "signal" by decide),
                            lookupPathT_setY_ne (show "bridge" ≠ "signal" by decide),
                            lookupPathT_setY_ymap_self,
                            lookupPathT_setY_ne hne2s,
                            lookupPathT_descend (k2 :: rest2) hsg]
                      · by_cases hB : k1 = "bridge"
                        · subst hB
                          have h5 := hp ["bridge", "permissions"] (by decide)
                          rw [touches_head] at h5
                          cases rest with
                          | nil => exact (touches_nil_right h5).elim
                          | cons k2 rest2 =>
                            have hne2p : "permissions" ≠ k2 := ne_of_touches_single h5
                            rw [lookupPathT_setY_ne (show "logging" ≠ "bridge" by decide),
                              lookupPathT_setY_ymap_self,
                              lookupPathT_setY_ne hne2p,
                              lookupPathT_descend (k2 :: rest2) hbr]
                        · by_cases hL : k1 = "logging"
                          · subst hL
                            have h6 := hp ["logging", "handlers", "file", "filename"] (by decide)
                            rw [touches_head] at h6
                            cases rest with
                            | nil => exact (touches_nil_right h6).elim
                            | cons k2 rest2 =>
                              rw [lookupPathT_setY_ymap_self,
                                lookupPathT_descend (k2 :: rest2) hlg]
                              by_cases hk2 : k2 = "handlers"
                              · subst hk2
                                rw [touches_head] at h6
                                cases rest2 with
                                | nil => exact (touches_nil_right h6).elim
                                | cons k3 rest3 =>
                                  rw [lookupPathT_setY_ymap_self,
                                    lookupPathT_descend (k3 :: rest3) hhd]
                                  by_cases hk3 : k3 = "file"
                                  · subst hk3
                                    rw [touches_head] at h6
                                    cases rest3 with
                                    | nil => exact (touches_nil_right h6).elim
                                    | cons k4 rest4 =>
                                      have hne4 : "filename" ≠ k4 := ne_of_touches_single h6
                                      rw [lookupPathT_setY_ymap_self,
                                        lookupPathT_descend (k4 :: rest4) hfl,
                                        lookupPathT_setY_ne hne4]
                                  · rw [lookupPathT_setY_ne (fun hh => hk3 hh.symm)]
                              · rw [lookupPathT_setY_ne (fun hh => hk2 hh.symm)]
                          · rw [lookupPathT_setY_ne (fun hh => hL hh.symm),
                              lookupPathT_setY_ne (fun hh => hB hh.symm),
                              lookupPathT_setY_ne (fun hh => hS hh.symm),
                              lookupPathT_setY_ne (fun hh => hA hh.symm),
                              lookupPathT_setY_ne (fun hh => hH hh.symm)]
              · simp at h
            · simp at h
          · simp at h
        · simp at h
      · simp at h
    · simp at h
  · simp at h

/-- A concrete mautrix-signal configuration tree for the C9 witness, with
all five owned sections present and an unowned key in the homeserver
section. -/
def c9Config : YMap :=
  [("homeserver", .ymap [("address", .str "old"), ("verify_ssl", .bool true)]),
   ("appservice", .ymap [("address", .str "old")]),
   ("signal", .ymap [("socket_path", .str "old")]),
   ("bridge", .ymap [("permissions", .ymap [])]),
   ("logging", .ymap [("handlers", .ymap [("file", .ymap [("filename", .str "old")])])])]

/-- The tree `updateMautrixSignalData` produces on the C9 witness input. -/
def c9Result : YMap :=
  match updateMautrixSignalData zeroMautrixSignal c9Config with
  | .ok c => c
  | .error _ => []

/-- Witness for C9 at the concrete tree: the mutation succeeds and the
unowned key homeserver.verify_ssl is untouched. -/
theorem claim_C9_witness :
    updateMautrixSignalData zeroMautrixSignal c9Config = .ok c9Result ∧
    lookupPathT c9Result ["homeserver", "verify_ssl"] =
      lookupPathT c9Config ["homeserver", "verify_ssl"] :=
  ⟨rfl,
   claim_C9_owned_keys_frame zeroMautrixSignal c9Config c9Result rfl
     ["homeserver", "verify_ssl"] (by decide)⟩

end SynapseOperator
